import Mathlib

/-!
Verification development for the Agentic-Apps repository.

The repository holds two demo configurations for an external LLM
orchestration runtime (`src/gcp_iac/agent.py` and
`src/stock_picker/agent.py`).  The only first-party computation is
`get_financial_data` in `src/stock_picker/agent.py`: it queries an
external market-data provider (`yfinance`) for a ticker, reads twelve
named attributes out of the loosely typed `info` bag with
default-on-missing semantics, builds a `FinancialData` Pydantic record,
and converts any exception raised inside the `try` block into a record
whose `error` field carries the failure text.

We embed that function shallowly:

 - the provider (`yf.Ticker(t).info`) is a parameter of type
   `Provider := String → Except String Info`, where `Except.error e`
   models the lookup raising an exception with message `e`;
 - `Info` models the provider's attribute bag: a partial map from
   attribute names to loosely typed values (`Val`), with `Info.get`
   mirroring Python's `dict.get` (returning the absent marker `none`
   for a missing key);
 - Python floats are modelled as `ℚ`, Python ints as `ℤ`;
 - the Pydantic model construction `FinancialData(**financials_dict)`
   validates each value against the declared `Optional[...]` type and
   raises `ValidationError` on a mismatch; `buildFinancialData` models
   this, with `Except.error` modelling the raise (which the source
   catches, since the construction happens inside the `try` block).
   Pydantic lax-mode coercion between the value kinds of `Val` is
   modelled (int accepted where float is declared, integral float
   accepted where int is declared); numeric-string parsing is not,
   as no property below depends on it.
-/

/-- A loosely typed value in the provider's attribute bag: the provider
returns strings, floats and ints. -/
inductive Val : Type where
  | str (s : String)
  | num (q : ℚ)
  | intv (n : ℤ)
deriving DecidableEq

/-- The provider's `info` attribute bag, a partial map from attribute
names to values (Python dict, observed through `.get`). -/
def Info : Type := String → Option Val

/-- Python's `info.get(key)`: the value at `key`, or `None` when the
provider omits the attribute. -/
def Info.get (info : Info) (key : String) : Option Val :=
  info key

/-- The behaviour of `yf.Ticker(t).info` as seen by the fetcher: for a
ticker, either an attribute bag, or `Except.error e` when the lookup
raises an exception whose message is `e` (network failure, unknown
symbol, schema drift). -/
def Provider : Type := String → Except String Info

/-- The `FinancialData` Pydantic model of `src/stock_picker/agent.py`
(lines 18-32): thirteen optional fields, each defaulting to `None`. -/
structure FinancialData : Type where
  company_name : Option String := none
  sector : Option String := none
  industry : Option String := none
  market_cap : Option ℚ := none
  pe_ratio : Option ℚ := none
  forward_pe : Option ℚ := none
  dividend_yield : Option ℚ := none
  price_to_book : Option ℚ := none
  fifty_two_week_high : Option ℚ := none
  fifty_two_week_low : Option ℚ := none
  average_volume : Option ℤ := none
  short_summary : Option String := none
  error : Option String := none
deriving DecidableEq

/-- Pydantic validation of a value against `Optional[str]`: absent and
strings pass through; a non-string raises `ValidationError`. -/
def validateStr : Option Val → Except String (Option String)
  | none => Except.ok none
  | some (Val.str s) => Except.ok (some s)
  | some (Val.num _) => Except.error ("validation error: str expected")
  | some (Val.intv _) => Except.error ("validation error: str expected")

/-- Pydantic validation of a value against `Optional[float]`: absent,
floats, and ints (coerced) pass; a string raises `ValidationError`. -/
def validateFloat : Option Val → Except String (Option ℚ)
  | none => Except.ok none
  | some (Val.num q) => Except.ok (some q)
  | some (Val.intv n) => Except.ok (some (n : ℚ))
  | some (Val.str _) => Except.error ("validation error: float expected")

/-- Pydantic validation of a value against `Optional[int]`: absent, ints,
and integral floats pass; anything else raises `ValidationError`. -/
def validateInt : Option Val → Except String (Option ℤ)
  | none => Except.ok none
  | some (Val.intv n) => Except.ok (some n)
  | some (Val.num q) =>
      if q.den = 1 then Except.ok (some q.num)
      else Except.error ("validation error: int expected")
  | some (Val.str _) => Except.error ("validation error: int expected")

/-- Lines 52-67 of `src/stock_picker/agent.py`: assemble
`financials_dict` from the twelve named attributes of `info` (each via
`info.get`, so a missing attribute becomes `None`) and construct
`FinancialData(**financials_dict)`.  `Except.error` models the Pydantic
`ValidationError` raise; the `error` field is not in the dict, so it
takes its default `None`. -/
def buildFinancialData (info : Info) : Except String FinancialData := do
  let company_name ← validateStr (info.get ("longName"))
  let sector ← validateStr (info.get ("sector"))
  let industry ← validateStr (info.get ("industry"))
  let market_cap ← validateFloat (info.get ("marketCap"))
  let pe_ratio ← validateFloat (info.get ("trailingPE"))
  let forward_pe ← validateFloat (info.get ("forwardPE"))
  let dividend_yield ← validateFloat (info.get ("dividendYield"))
  let price_to_book ← validateFloat (info.get ("priceToBook"))
  let fifty_two_week_high ← validateFloat (info.get ("fiftyTwoWeekHigh"))
  let fifty_two_week_low ← validateFloat (info.get ("fiftyTwoWeekLow"))
  let average_volume ← validateInt (info.get ("averageVolume"))
  let short_summary ← validateStr (info.get ("longBusinessSummary"))
  Except.ok { company_name, sector, industry, market_cap, pe_ratio,
              forward_pe, dividend_yield, price_to_book,
              fifty_two_week_high, fifty_two_week_low, average_volume,
              short_summary, error := none }

/-- The body of the `try` block of `get_financial_data` (lines 47-67):
look the ticker up with the provider, then build the record; an
`Except.error` is an exception propagating out of the `try` body. -/
def fetchAndBuild (provider : Provider) (ticker : String) : Except String FinancialData :=
  (provider ticker).bind buildFinancialData

/-- The f-string of line 70:
`f"Could not retrieve data for {ticker}. Error: {str(e)}"`. -/
def fetchErrorMessage (ticker msg : String) : String :=
  "Could not retrieve data for " ++ ticker ++ ". Error: " ++ msg

/-- `get_financial_data` (lines 37-70): run the `try` body; if any
exception `e` escapes it, the `except` branch returns a `FinancialData`
record whose only populated field is `error`. -/
def get_financial_data (provider : Provider) (ticker : String) : FinancialData :=
  match fetchAndBuild provider ticker with
  | Except.ok fd => fd
  | Except.error e => { error := some (fetchErrorMessage ticker e) }

/-- True when at least one of the twelve data fields is populated. -/
def FinancialData.dataPopulated (fd : FinancialData) : Bool :=
  fd.company_name.isSome || fd.sector.isSome || fd.industry.isSome ||
  fd.market_cap.isSome || fd.pe_ratio.isSome || fd.forward_pe.isSome ||
  fd.dividend_yield.isSome || fd.price_to_book.isSome ||
  fd.fifty_two_week_high.isSome || fd.fifty_two_week_low.isSome ||
  fd.average_volume.isSome || fd.short_summary.isSome

/-- True when the record holds both populated data and a populated
error: the mixing that the invariant of spec section 3 forbids. -/
def FinancialData.mixed (fd : FinancialData) : Bool :=
  fd.dataPopulated && fd.error.isSome

/-- The exactly-one-side reading of the invariant of spec section 3:
data populated XOR error populated. -/
def FinancialData.exclusiveOk (fd : FinancialData) : Bool :=
  fd.dataPopulated.xor fd.error.isSome

/-!
The agent registration surface.  An `LlmAgent` configuration carries a
name, a model identifier, a description, a list of tools and a list of
sub-agents; a tool is either a `FunctionTool` wrapping a named function
with its declared input and output types, the prebuilt `google_search`
tool, or an `AgentTool` wrapping another agent.  The natural-language
`instruction` prose is interpreted by the external model at run time
and is out of scope (spec section 1), so it is not modelled.
-/

mutual

inductive ADKTool : Type where
  | functionTool (funcName : String) (inputType : String) (outputType : String)
  | googleSearch
  | agentTool (agent : LlmAgent)

inductive LlmAgent : Type where
  | mk (name : String) (model : String) (description : String)
       (tools : List ADKTool) (subAgents : List LlmAgent)

end

/-- The `name=` argument of an `LlmAgent`. -/
def LlmAgent.name : LlmAgent → String
  | LlmAgent.mk n _ _ _ _ => n

/-- The `model=` argument of an `LlmAgent`. -/
def LlmAgent.model : LlmAgent → String
  | LlmAgent.mk _ m _ _ _ => m

/-- The `tools=` argument of an `LlmAgent` (empty when not given). -/
def LlmAgent.tools : LlmAgent → List ADKTool
  | LlmAgent.mk _ _ _ ts _ => ts

/-- The `sub_agents=` argument of an `LlmAgent` (empty when not given). -/
def LlmAgent.subAgents : LlmAgent → List LlmAgent
  | LlmAgent.mk _ _ _ _ sub => sub

/-- Line 73 of `src/stock_picker/agent.py`:
`FunctionTool(func=get_financial_data)`; the ADK infers the schema from
the signature `(ticker: str) -> FinancialData`. -/
def financial_data_tool : ADKTool :=
  ADKTool.functionTool ("get_financial_data") ("str") ("FinancialData")

/-- Lines 79-89 of `src/stock_picker/agent.py`. -/
def fundamental_analyst : LlmAgent :=
  LlmAgent.mk ("FundamentalAnalyst") ("gemini-2.5-flash")
    ("Analyzes the financial health and valuation of a company using its stock ticker. Focuses on metrics like P/E ratio, market cap, and dividend yield.")
    [financial_data_tool] []

/-- Lines 91-100 of `src/stock_picker/agent.py`. -/
def market_sentiment_analyst : LlmAgent :=
  LlmAgent.mk ("MarketSentimentAnalyst") ("gemini-2.5-flash")
    ("Researches and reports on the market sentiment, news, and public perception of a company.")
    [ADKTool.googleSearch] []

/-- Lines 102-111 of `src/stock_picker/agent.py`. -/
def economic_and_industry_analyst : LlmAgent :=
  LlmAgent.mk ("EconomicAndIndustryAnalyst") ("gemini-2.5-flash")
    ("Analyzes the broader economic and industry-specific trends affecting a company.")
    [ADKTool.googleSearch] []

/-- Lines 117-143 of `src/stock_picker/agent.py`: the coordinator of the
stock-research demo, delegating to the three analysts via `AgentTool`. -/
def chief_investment_officer : LlmAgent :=
  LlmAgent.mk ("ChiefInvestmentOfficer") ("gemini-2.5-pro")
    ("A top-level agent that analyzes stocks for long-term potential by coordinating a team of specialist analysts.")
    [ADKTool.agentTool fundamental_analyst,
     ADKTool.agentTool market_sentiment_analyst,
     ADKTool.agentTool economic_and_industry_analyst] []

/-- Line 146 of `src/stock_picker/agent.py`. -/
def stock_picker_root_agent : LlmAgent := chief_investment_officer

/-- Lines 5-16 of `src/gcp_iac/agent.py`. -/
def terraform_config_gen : LlmAgent :=
  LlmAgent.mk ("terraform_config_gen") ("gemini-2.5-pro")
    ("Generates Terraform HCL configuration for Google Cloud resources.")
    [] []

/-- Lines 19-30 of `src/gcp_iac/agent.py`. -/
def kubectl_manifest_gen : LlmAgent :=
  LlmAgent.mk ("kubectl_manifest_gen") ("gemini-2.5-pro")
    ("Generates Kubernetes YAML manifests for kubectl.")
    [] []

/-- Lines 33-47 of `src/gcp_iac/agent.py`: the IaC coordinator with its
two sub-agents. -/
def coordinator : LlmAgent :=
  LlmAgent.mk ("Coordinator") ("gemini-2.5-flash")
    ("I coordinate user query on their infrastructure-as-code needs for GCP resources, by either providing Terraform config or kubectl manifest.")
    [] [terraform_config_gen, kubectl_manifest_gen]

/-- Line 49 of `src/gcp_iac/agent.py`. -/
def gcp_iac_root_agent : LlmAgent := coordinator

/-!
The demo entry point `main()` (lines 152-208 of
`src/stock_picker/agent.py`), modelled as the trace of externally
visible actions it performs, as a function of the process environment.
The event-consumption loop after `runner.run_async` iterates a stream
owned by the external runtime and is summarised by the single
`runAgent` action that starts it.
-/

/-- An externally visible action of `main`. -/
inductive MainAction : Type where
  | print (s : String)
  | mkSessionService
  | mkRunner (appName : String) (agentName : String)
  | createSession (userId : String)
  | runAgent (agentName : String) (query : String)
deriving DecidableEq

/-- The sample query of line 172. -/
def user_query : String :=
  "Should I invest in Microsoft (MSFT) for the long term?"

/-- `main()` as a trace of actions (named `mainTrace`, since `main` is reserved in Lean).  `env` is `os.environ.get`; the
guard models Python truthiness of `os.environ.get("GOOGLE_API_KEY")`
(`None` and the empty string are falsy).  On a missing credential the
function prints two lines and returns before touching the session
service, the runner, or the network. -/
def mainTrace (env : String → Option String) : List MainAction :=
  if (env ("GOOGLE_API_KEY")).getD "" = "" then
    [MainAction.print ("🔴 GOOGLE_API_KEY environment variable not set."),
     MainAction.print ("Please set it to run the agent.")]
  else
    [MainAction.print ("🟢 Initializing Stock Analysis Agentic System..."),
     MainAction.mkSessionService,
     MainAction.mkRunner ("stock_analysis_app") (stock_picker_root_agent.name),
     MainAction.createSession ("test_user"),
     MainAction.print ("\n💬 User Query: " ++ user_query),
     MainAction.print ("------------------------------"),
     MainAction.print ("🧠 ChiefInvestmentOfficer is starting the analysis...\n"),
     MainAction.runAgent (stock_picker_root_agent.name) user_query]

/-!
Concrete provider responses used to instantiate the theorems below at
explicit inputs.
-/

/-- A full provider response: all twelve named attributes present, with
the types the provider documents (strings, floats, an int). -/
def fullInfo : Info := fun key =>
  if key = "longName" then some (Val.str ("Microsoft Corporation"))
  else if key = "sector" then some (Val.str ("Technology"))
  else if key = "industry" then some (Val.str ("Software - Infrastructure"))
  else if key = "marketCap" then some (Val.num ((3000000000000 : ℚ)))
  else if key = "trailingPE" then some (Val.num ((71 : ℚ)/2))
  else if key = "forwardPE" then some (Val.num ((30 : ℚ)))
  else if key = "dividendYield" then some (Val.num ((8 : ℚ)/1000))
  else if key = "priceToBook" then some (Val.num ((12 : ℚ)))
  else if key = "fiftyTwoWeekHigh" then some (Val.num ((468 : ℚ)))
  else if key = "fiftyTwoWeekLow" then some (Val.num ((309 : ℚ)))
  else if key = "averageVolume" then some (Val.intv ((21000000 : ℤ)))
  else if key = "longBusinessSummary" then some (Val.str ("Develops and supports software, services, devices, and solutions."))
  else none

/-- A partial provider response: the same as `fullInfo` but with the
`forwardPE` attribute omitted. -/
def partialInfo : Info := fun key =>
  if key = "longName" then some (Val.str ("Microsoft Corporation"))
  else if key = "sector" then some (Val.str ("Technology"))
  else if key = "industry" then some (Val.str ("Software - Infrastructure"))
  else if key = "marketCap" then some (Val.num ((3000000000000 : ℚ)))
  else if key = "trailingPE" then some (Val.num ((71 : ℚ)/2))
  else if key = "dividendYield" then some (Val.num ((8 : ℚ)/1000))
  else if key = "priceToBook" then some (Val.num ((12 : ℚ)))
  else if key = "fiftyTwoWeekHigh" then some (Val.num ((468 : ℚ)))
  else if key = "fiftyTwoWeekLow" then some (Val.num ((309 : ℚ)))
  else if key = "averageVolume" then some (Val.intv ((21000000 : ℤ)))
  else if key = "longBusinessSummary" then some (Val.str ("Develops and supports software, services, devices, and solutions."))
  else none

/-- A provider response that omits every one of the twelve named
attributes. -/
def emptyInfo : Info := fun _ => none

/-- A provider response that omits every named attribute but carries an
attribute the fetcher never reads. -/
def extraAttrInfo : Info := fun key =>
  if key = "beta" then some (Val.num ((9 : ℚ)/10)) else none

/-!
Helper lemmas about the validators and `buildFinancialData`.
-/

theorem validateStr_map (o : Option String) :
    validateStr (Option.map Val.str o) = Except.ok o := by
  cases o <;> rfl

theorem validateFloat_map (o : Option ℚ) :
    validateFloat (Option.map Val.num o) = Except.ok o := by
  cases o <;> rfl

theorem validateInt_map (o : Option ℤ) :
    validateInt (Option.map Val.intv o) = Except.ok o := by
  cases o <;> rfl

/-- When each of the twelve attributes is either absent or carries a
value of its declared kind, the record construction succeeds and each
output field is exactly the (optional) attribute value. -/
theorem buildFinancialData_spec (info : Info)
    (ln sec ind ss : Option String) (mc pe fpe dy pb hi lo : Option ℚ) (av : Option ℤ)
    (h1 : info.get ("longName") = Option.map Val.str ln)
    (h2 : info.get ("sector") = Option.map Val.str sec)
    (h3 : info.get ("industry") = Option.map Val.str ind)
    (h4 : info.get ("marketCap") = Option.map Val.num mc)
    (h5 : info.get ("trailingPE") = Option.map Val.num pe)
    (h6 : info.get ("forwardPE") = Option.map Val.num fpe)
    (h7 : info.get ("dividendYield") = Option.map Val.num dy)
    (h8 : info.get ("priceToBook") = Option.map Val.num pb)
    (h9 : info.get ("fiftyTwoWeekHigh") = Option.map Val.num hi)
    (h10 : info.get ("fiftyTwoWeekLow") = Option.map Val.num lo)
    (h11 : info.get ("averageVolume") = Option.map Val.intv av)
    (h12 : info.get ("longBusinessSummary") = Option.map Val.str ss) :
    buildFinancialData info = Except.ok
      { company_name := ln, sector := sec, industry := ind, market_cap := mc,
        pe_ratio := pe, forward_pe := fpe, dividend_yield := dy,
        price_to_book := pb, fifty_two_week_high := hi,
        fifty_two_week_low := lo, average_volume := av, short_summary := ss,
        error := none } := by
  unfold buildFinancialData
  rw [h1, h2, h3, h4, h5, h6, h7, h8, h9, h10, h11, h12]
  rw [validateStr_map, validateStr_map, validateStr_map, validateStr_map,
      validateFloat_map, validateFloat_map, validateFloat_map, validateFloat_map,
      validateFloat_map, validateFloat_map, validateFloat_map, validateInt_map]
  rfl

/-- A record that the `try` body constructs always has `error = None`:
the `error` key is not in `financials_dict`, so the field keeps its
default. -/
theorem build_error_none (info : Info) (fd : FinancialData)
    (h : buildFinancialData info = Except.ok fd) : fd.error = none := by
  unfold buildFinancialData at h
  simp only [bind, Except.bind] at h
  repeat' split at h
  all_goals first
    | exact Except.noConfusion h
    | (injection h with h2; subst h2; rfl)

/-- When the `try` body succeeds, `get_financial_data` returns its
record unchanged. -/
theorem get_financial_data_ok (p : Provider) (t : String) (info : Info) (fd : FinancialData)
    (hp : p t = Except.ok info) (hb : buildFinancialData info = Except.ok fd) :
    get_financial_data p t = fd := by
  unfold get_financial_data fetchAndBuild
  rw [hp]
  simp [Except.bind, hb]

/-- When the `try` body raises `e`, `get_financial_data` returns the
error-only record built by the `except` branch. -/
theorem get_financial_data_raise (p : Provider) (t e : String)
    (h : fetchAndBuild p t = Except.error e) :
    get_financial_data p t = { error := some (fetchErrorMessage t e) } := by
  unfold get_financial_data
  rw [h]

/-- The error message of line 70 is never the empty string. -/
theorem fetchErrorMessage_ne_empty (t e : String) : fetchErrorMessage t e ≠ "" := by
  intro h
  have := congrArg String.length h
  simp [fetchErrorMessage, String.length_append] at this
  exact absurd this.1.2 (by decide)

/-!
The claims.
-/

/-- Claim C1, counterexample.  The claim asserts that exactly one of
{some data field populated} or {error populated} holds for every
provider behaviour.  It fails: when the lookup succeeds but the
provider omits all twelve attributes, the returned record has every
data field absent and `error` absent as well, so neither side is
populated and the exclusive-or is false. -/
theorem fetch_exactly_one_side_fails_on_empty_info :
    (get_financial_data (fun _ => Except.ok emptyInfo) ("MSFT")).exclusiveOk = false := by
  rfl

/-- Claim C1, amended.  For every ticker and every provider behaviour,
the record returned by `get_financial_data` never mixes populated data
fields with a populated `error` field: at most one of the two sides is
populated (it can happen that neither is, as the counterexample
shows). -/
theorem fetch_never_mixes_data_and_error (p : Provider) (t : String) :
    (get_financial_data p t).mixed = false := by
  unfold get_financial_data
  cases hfb : fetchAndBuild p t with
  | ok fd =>
      have he : fd.error = none := by
        unfold fetchAndBuild at hfb
        cases hp : p t with
        | ok info =>
            rw [hp] at hfb
            simp only [Except.bind] at hfb
            exact build_error_none info fd hfb
        | error e =>
            rw [hp] at hfb
            simp [Except.bind] at hfb
      simp [FinancialData.mixed, FinancialData.dataPopulated, he]
  | error e => rfl

/-- Claim C2.  For every ticker and whatever exception the `try` body
raises (provider lookup failure or record validation failure alike),
`get_financial_data` does not propagate it: it returns the
`FinancialData` record built by the `except` branch, with the failure
captured in the `error` field. -/
theorem fetch_raise_converted_to_record (p : Provider) (t e : String)
    (h : fetchAndBuild p t = Except.error e) :
    get_financial_data p t = { error := some (fetchErrorMessage t e) } := by
  exact get_financial_data_raise p t e h

/-- Claim C2, witness: a provider whose lookup raises. -/
theorem fetch_raise_converted_to_record_witness :
    get_financial_data (fun _ => Except.error ("HTTP Error 404: Not Found")) ("MSFT")
      = { error := some (fetchErrorMessage ("MSFT") ("HTTP Error 404: Not Found")) } :=
  fetch_raise_converted_to_record (fun _ => Except.error ("HTTP Error 404: Not Found"))
    ("MSFT") ("HTTP Error 404: Not Found") rfl

/-- Claim C3.  When the provider lookup raises with message `e`, the
returned record is exactly the error-only record: its `error` field is
a non-empty string that contains the ticker and the underlying message,
and the twelve data fields are all absent (the record equality fixes
them to their `none` defaults). -/
theorem fetch_provider_raise_error_record (p : Provider) (t e : String)
    (h : p t = Except.error e) :
    get_financial_data p t = { error := some (fetchErrorMessage t e) } ∧
    fetchErrorMessage t e ≠ "" ∧
    (∃ pre post, fetchErrorMessage t e = pre ++ t ++ post) ∧
    (∃ pre, fetchErrorMessage t e = pre ++ e) := by
  refine ⟨?_, fetchErrorMessage_ne_empty t e, ?_, ?_⟩
  · exact get_financial_data_raise p t e (by unfold fetchAndBuild; rw [h]; rfl)
  · exact ⟨"Could not retrieve data for ", ". Error: " ++ e, by
      simp [fetchErrorMessage, String.append_assoc]⟩
  · exact ⟨"Could not retrieve data for " ++ t ++ ". Error: ", rfl⟩

/-- Claim C3, witness: an unreachable provider at ticker ZZZZ. -/
theorem fetch_provider_raise_error_record_witness :
    get_financial_data (fun _ => Except.error ("connection refused")) ("ZZZZ")
        = { error := some (fetchErrorMessage ("ZZZZ") ("connection refused")) } ∧
      fetchErrorMessage ("ZZZZ") ("connection refused") ≠ "" ∧
      (∃ pre post, fetchErrorMessage ("ZZZZ") ("connection refused") = pre ++ "ZZZZ" ++ post) ∧
      (∃ pre, fetchErrorMessage ("ZZZZ") ("connection refused") = pre ++ "connection refused") :=
  fetch_provider_raise_error_record (fun _ => Except.error ("connection refused"))
    ("ZZZZ") ("connection refused") rfl

/-- Claim C4.  When the provider response carries all twelve named
attributes (with the kinds the provider documents), the returned record
matches them field by field; in particular `dividend_yield` is the
provider value `dy` itself, with no percentage scaling. -/
theorem fetch_full_response_field_equality (p : Provider) (t : String) (info : Info)
    (ln sec ind ss : String) (mc pe fpe dy pb hi lo : ℚ) (av : ℤ)
    (hp : p t = Except.ok info)
    (h1 : info.get ("longName") = some (Val.str ln))
    (h2 : info.get ("sector") = some (Val.str sec))
    (h3 : info.get ("industry") = some (Val.str ind))
    (h4 : info.get ("marketCap") = some (Val.num mc))
    (h5 : info.get ("trailingPE") = some (Val.num pe))
    (h6 : info.get ("forwardPE") = some (Val.num fpe))
    (h7 : info.get ("dividendYield") = some (Val.num dy))
    (h8 : info.get ("priceToBook") = some (Val.num pb))
    (h9 : info.get ("fiftyTwoWeekHigh") = some (Val.num hi))
    (h10 : info.get ("fiftyTwoWeekLow") = some (Val.num lo))
    (h11 : info.get ("averageVolume") = some (Val.intv av))
    (h12 : info.get ("longBusinessSummary") = some (Val.str ss)) :
    get_financial_data p t =
      { company_name := some ln, sector := some sec, industry := some ind,
        market_cap := some mc, pe_ratio := some pe, forward_pe := some fpe,
        dividend_yield := some dy, price_to_book := some pb,
        fifty_two_week_high := some hi, fifty_two_week_low := some lo,
        average_volume := some av, short_summary := some ss,
        error := none } :=
  get_financial_data_ok p t info _ hp
    (buildFinancialData_spec info (some ln) (some sec) (some ind) (some ss)
      (some mc) (some pe) (some fpe) (some dy) (some pb) (some hi) (some lo)
      (some av) h1 h2 h3 h4 h5 h6 h7 h8 h9 h10 h11 h12)

/-- Claim C4, witness: a mocked full response; `dividend_yield` comes
out as the fraction 8/1000, not scaled to a percentage. -/
theorem fetch_full_response_field_equality_witness :
    get_financial_data (fun _ => Except.ok fullInfo) ("MSFT") =
      { company_name := some ("Microsoft Corporation"),
        sector := some ("Technology"),
        industry := some ("Software - Infrastructure"),
        market_cap := some ((3000000000000 : ℚ)),
        pe_ratio := some ((71 : ℚ)/2),
        forward_pe := some ((30 : ℚ)),
        dividend_yield := some ((8 : ℚ)/1000),
        price_to_book := some ((12 : ℚ)),
        fifty_two_week_high := some ((468 : ℚ)),
        fifty_two_week_low := some ((309 : ℚ)),
        average_volume := some ((21000000 : ℤ)),
        short_summary := some ("Develops and supports software, services, devices, and solutions."),
        error := none } :=
  fetch_full_response_field_equality (fun _ => Except.ok fullInfo) ("MSFT") fullInfo
    ("Microsoft Corporation") ("Technology") ("Software - Infrastructure")
    ("Develops and supports software, services, devices, and solutions.")
    ((3000000000000 : ℚ)) ((71 : ℚ)/2) ((30 : ℚ)) ((8 : ℚ)/1000) ((12 : ℚ))
    ((468 : ℚ)) ((309 : ℚ)) ((21000000 : ℤ))
    rfl rfl rfl rfl rfl rfl rfl rfl rfl rfl rfl rfl rfl

/-- Claim C5.  For a provider response in which each of the twelve
attributes is independently present (with its documented kind) or
omitted, every omitted attribute yields an absent output field, every
present attribute value is carried over, and no exception escapes: the
success record is returned, with `error` absent. -/
theorem fetch_partial_response_fields (p : Provider) (t : String) (info : Info)
    (ln sec ind ss : Option String) (mc pe fpe dy pb hi lo : Option ℚ) (av : Option ℤ)
    (hp : p t = Except.ok info)
    (h1 : info.get ("longName") = Option.map Val.str ln)
    (h2 : info.get ("sector") = Option.map Val.str sec)
    (h3 : info.get ("industry") = Option.map Val.str ind)
    (h4 : info.get ("marketCap") = Option.map Val.num mc)
    (h5 : info.get ("trailingPE") = Option.map Val.num pe)
    (h6 : info.get ("forwardPE") = Option.map Val.num fpe)
    (h7 : info.get ("dividendYield") = Option.map Val.num dy)
    (h8 : info.get ("priceToBook") = Option.map Val.num pb)
    (h9 : info.get ("fiftyTwoWeekHigh") = Option.map Val.num hi)
    (h10 : info.get ("fiftyTwoWeekLow") = Option.map Val.num lo)
    (h11 : info.get ("averageVolume") = Option.map Val.intv av)
    (h12 : info.get ("longBusinessSummary") = Option.map Val.str ss) :
    get_financial_data p t =
      { company_name := ln, sector := sec, industry := ind, market_cap := mc,
        pe_ratio := pe, forward_pe := fpe, dividend_yield := dy,
        price_to_book := pb, fifty_two_week_high := hi,
        fifty_two_week_low := lo, average_volume := av, short_summary := ss,
        error := none } :=
  get_financial_data_ok p t info _ hp
    (buildFinancialData_spec info ln sec ind ss mc pe fpe dy pb hi lo av
      h1 h2 h3 h4 h5 h6 h7 h8 h9 h10 h11 h12)

/-- Claim C5, witness: a mocked response with `forwardPE` omitted; the
`forward_pe` field is absent and the other eleven are populated. -/
theorem fetch_partial_response_fields_witness :
    get_financial_data (fun _ => Except.ok partialInfo) ("MSFT") =
      { company_name := some ("Microsoft Corporation"),
        sector := some ("Technology"),
        industry := some ("Software - Infrastructure"),
        market_cap := some ((3000000000000 : ℚ)),
        pe_ratio := some ((71 : ℚ)/2),
        forward_pe := none,
        dividend_yield := some ((8 : ℚ)/1000),
        price_to_book := some ((12 : ℚ)),
        fifty_two_week_high := some ((468 : ℚ)),
        fifty_two_week_low := some ((309 : ℚ)),
        average_volume := some ((21000000 : ℤ)),
        short_summary := some ("Develops and supports software, services, devices, and solutions."),
        error := none } :=
  fetch_partial_response_fields (fun _ => Except.ok partialInfo) ("MSFT") partialInfo
    (some ("Microsoft Corporation")) (some ("Technology"))
    (some ("Software - Infrastructure"))
    (some ("Develops and supports software, services, devices, and solutions."))
    (some ((3000000000000 : ℚ))) (some ((71 : ℚ)/2)) none (some ((8 : ℚ)/1000))
    (some ((12 : ℚ))) (some ((468 : ℚ))) (some ((309 : ℚ)))
    (some ((21000000 : ℤ)))
    rfl rfl rfl rfl rfl rfl rfl rfl rfl rfl rfl rfl rfl

/-- Claim C6.  The fetcher performs no memoization or caching: the
record a call returns is determined solely by the provider response
that call observes, so two providers that give the same response at a
ticker yield the same record, and a second call against a changed
provider is computed from the changed response alone. -/
theorem fetch_depends_only_on_observed_response (p₁ p₂ : Provider) (t : String)
    (h : p₁ t = p₂ t) :
    get_financial_data p₁ t = get_financial_data p₂ t := by
  unfold get_financial_data fetchAndBuild
  rw [h]

/-- Claim C6, witness: two distinct provider functions agreeing at
MSFT give equal records there. -/
theorem fetch_depends_only_on_observed_response_witness :
    get_financial_data (fun s => Except.error s) ("MSFT")
      = get_financial_data (fun _ => Except.error ("MSFT")) ("MSFT") :=
  fetch_depends_only_on_observed_response (fun s => Except.error s)
    (fun _ => Except.error ("MSFT")) ("MSFT") rfl

/-- Claim C7.  When `GOOGLE_API_KEY` is absent from the environment,
`main` prints the clearly labeled missing-credential message and the
follow-up line, then returns: its trace holds those two prints only, so
it constructs no session service, no runner, no session, and starts no
agent run. -/
theorem main_missing_credential_early_return (env : String → Option String)
    (h : env ("GOOGLE_API_KEY") = none) :
    mainTrace env =
      [MainAction.print ("🔴 GOOGLE_API_KEY environment variable not set."),
       MainAction.print ("Please set it to run the agent.")] ∧
    (MainAction.mkSessionService ∉ mainTrace env) ∧
    (∀ a g, MainAction.mkRunner a g ∉ mainTrace env) ∧
    (∀ u, MainAction.createSession u ∉ mainTrace env) ∧
    (∀ g q, MainAction.runAgent g q ∉ mainTrace env) := by
  have htr : mainTrace env =
      [MainAction.print ("🔴 GOOGLE_API_KEY environment variable not set."),
       MainAction.print ("Please set it to run the agent.")] := by
    unfold mainTrace
    rw [h]
    rfl
  refine ⟨htr, ?_, ?_, ?_, ?_⟩ <;> simp [htr]

/-- Claim C7, witness: the empty environment. -/
theorem main_missing_credential_early_return_witness :
    mainTrace (fun _ => none) =
      [MainAction.print ("🔴 GOOGLE_API_KEY environment variable not set."),
       MainAction.print ("Please set it to run the agent.")] ∧
    (MainAction.mkSessionService ∉ mainTrace (fun _ => none)) ∧
    (∀ a g, MainAction.mkRunner a g ∉ mainTrace (fun _ => none)) ∧
    (∀ u, MainAction.createSession u ∉ mainTrace (fun _ => none)) ∧
    (∀ g q, MainAction.runAgent g q ∉ mainTrace (fun _ => none)) :=
  main_missing_credential_early_return (fun _ => none) rfl

/-- Claim C8.  The registration topology: the fetcher tool wraps
`get_financial_data` with input `str` and output `FinancialData` and is
the FundamentalAnalyst's only tool; the web-search tool is the only
tool of exactly the two other analysts; the ChiefInvestmentOfficer's
tools are exactly the three analyst agents; the Coordinator declares
exactly the two generator sub-agents. -/
theorem registration_topology :
    fundamental_analyst.tools = [financial_data_tool] ∧
    financial_data_tool
      = ADKTool.functionTool ("get_financial_data") ("str") ("FinancialData") ∧
    market_sentiment_analyst.tools = [ADKTool.googleSearch] ∧
    economic_and_industry_analyst.tools = [ADKTool.googleSearch] ∧
    chief_investment_officer.tools =
      [ADKTool.agentTool fundamental_analyst,
       ADKTool.agentTool market_sentiment_analyst,
       ADKTool.agentTool economic_and_industry_analyst] ∧
    chief_investment_officer.tools.length = 3 ∧
    coordinator.subAgents = [terraform_config_gen, kubectl_manifest_gen] ∧
    coordinator.subAgents.length = 2 ∧
    (coordinator.subAgents.map LlmAgent.name)
      = ["terraform_config_gen", "kubectl_manifest_gen"] :=
  ⟨rfl, rfl, rfl, rfl, rfl, rfl, rfl, rfl, rfl⟩

/-- Claim C9.  When the lookup succeeds but the provider omits all
twelve named attributes, the returned record is entirely empty: every
data field is absent and `error` is absent too, so neither side of the
data-XOR-error pair is populated. -/
theorem fetch_all_attributes_absent_empty_record (p : Provider) (t : String) (info : Info)
    (hp : p t = Except.ok info)
    (h1 : info.get ("longName") = none)
    (h2 : info.get ("sector") = none)
    (h3 : info.get ("industry") = none)
    (h4 : info.get ("marketCap") = none)
    (h5 : info.get ("trailingPE") = none)
    (h6 : info.get ("forwardPE") = none)
    (h7 : info.get ("dividendYield") = none)
    (h8 : info.get ("priceToBook") = none)
    (h9 : info.get ("fiftyTwoWeekHigh") = none)
    (h10 : info.get ("fiftyTwoWeekLow") = none)
    (h11 : info.get ("averageVolume") = none)
    (h12 : info.get ("longBusinessSummary") = none) :
    get_financial_data p t = ({} : FinancialData) ∧
    (get_financial_data p t).dataPopulated = false ∧
    (get_financial_data p t).error = none := by
  have heq : get_financial_data p t = ({} : FinancialData) :=
    get_financial_data_ok p t info _ hp
      (buildFinancialData_spec info none none none none none none none none
        none none none none h1 h2 h3 h4 h5 h6 h7 h8 h9 h10 h11 h12)
  exact ⟨heq, by rw [heq]; rfl, by rw [heq]⟩

/-- Claim C9, witness: the all-absent response. -/
theorem fetch_all_attributes_absent_empty_record_witness :
    get_financial_data (fun _ => Except.ok emptyInfo) ("GOOG") = ({} : FinancialData) ∧
    (get_financial_data (fun _ => Except.ok emptyInfo) ("GOOG")).dataPopulated = false ∧
    (get_financial_data (fun _ => Except.ok emptyInfo) ("GOOG")).error = none :=
  fetch_all_attributes_absent_empty_record (fun _ => Except.ok emptyInfo) ("GOOG")
    emptyInfo rfl rfl rfl rfl rfl rfl rfl rfl rfl rfl rfl rfl rfl

/-- Claim C10.  On the success path the record depends only on the
twelve named attributes: two provider responses that agree on them give
equal records, whatever other attributes they carry. -/
theorem fetch_success_depends_only_on_named_attributes (p₁ p₂ : Provider) (t : String)
    (i₁ i₂ : Info)
    (hp₁ : p₁ t = Except.ok i₁) (hp₂ : p₂ t = Except.ok i₂)
    (e1 : i₁.get ("longName") = i₂.get ("longName"))
    (e2 : i₁.get ("sector") = i₂.get ("sector"))
    (e3 : i₁.get ("industry") = i₂.get ("industry"))
    (e4 : i₁.get ("marketCap") = i₂.get ("marketCap"))
    (e5 : i₁.get ("trailingPE") = i₂.get ("trailingPE"))
    (e6 : i₁.get ("forwardPE") = i₂.get ("forwardPE"))
    (e7 : i₁.get ("dividendYield") = i₂.get ("dividendYield"))
    (e8 : i₁.get ("priceToBook") = i₂.get ("priceToBook"))
    (e9 : i₁.get ("fiftyTwoWeekHigh") = i₂.get ("fiftyTwoWeekHigh"))
    (e10 : i₁.get ("fiftyTwoWeekLow") = i₂.get ("fiftyTwoWeekLow"))
    (e11 : i₁.get ("averageVolume") = i₂.get ("averageVolume"))
    (e12 : i₁.get ("longBusinessSummary") = i₂.get ("longBusinessSummary")) :
    get_financial_data p₁ t = get_financial_data p₂ t := by
  have hb : buildFinancialData i₁ = buildFinancialData i₂ := by
    unfold buildFinancialData
    rw [e1, e2, e3, e4, e5, e6, e7, e8, e9, e10, e11, e12]
  unfold get_financial_data fetchAndBuild
  rw [hp₁, hp₂]
  simp only [Except.bind]
  rw [hb]

/-- Claim C10, witness: a response carrying an extra `beta` attribute
gives the same record as the response without it. -/
theorem fetch_success_depends_only_on_named_attributes_witness :
    get_financial_data (fun _ => Except.ok extraAttrInfo) ("MSFT")
      = get_financial_data (fun _ => Except.ok emptyInfo) ("MSFT") :=
  fetch_success_depends_only_on_named_attributes
    (fun _ => Except.ok extraAttrInfo) (fun _ => Except.ok emptyInfo) ("MSFT")
    extraAttrInfo emptyInfo rfl rfl
    rfl rfl rfl rfl rfl rfl rfl rfl rfl rfl rfl rfl
